import Mathlib

/-!
Verification of the Veritrust web client's media-verification workflow
(src/web-client/src/upload/Upload.jsx and the duplicate Upload
implementation in src/unnamed/part_001) against its specification.

The component's hook state is embedded as an explicit record, each event
handler as a pure state transformer, and the reactive rendering as an
enabling condition on events: a handler can fire only while the control
that carries it is rendered and enabled.  Machine numbers that the page
displays (confidence, scores) are modelled as exact rationals.
-/

namespace Veritrust

/-- Candidate input file as the component sees it: the DOM File object's
display name, declared MIME type, byte size, and raw payload. -/
structure MediaFile where
  name : String
  mime : String
  size : Nat
  content : String
deriving DecidableEq, Repr

/-- One element of the gradcam_frames array of a success response body. -/
structure GradcamFrame where
  image : String
  frame_number : Int
  score : ℚ
  detection_frame : Bool
deriving DecidableEq, Repr

/-- Parsed JSON body of a success (2xx) response of POST /predict-video.
A response without the optional gradcam_frames field behaves exactly like
one with an empty array (both are skipped by the length-positive checks in
the component), so the absent field is modelled as the empty list. -/
structure AnalysisData where
  prediction : String
  confidence : ℚ
  filename : String
  gradcam_frames : List GradcamFrame
deriving DecidableEq, Repr

/-- Parsed JSON body of a non-2xx response: detail is optional. -/
structure ErrorBody where
  detail : Option String
deriving DecidableEq, Repr

/-- Result of awaiting response.json(): the body either parses, or the
call throws a syntax error carrying the engine's message. -/
inductive ParseOutcome (α : Type) where
  | ok (val : α)
  | parseError (msg : String)
deriving DecidableEq, Repr

/-- Outcome of the fetch as handleSubmit observes it: the fetch itself may
reject (network failure, carrying the exception's message), or deliver a
response whose ok flag is false or true and whose body parses or not. -/
inductive ServerReply where
  | netFail (msg : String)
  | errStatus (body : ParseOutcome ErrorBody)
  | okStatus (body : ParseOutcome AnalysisData)
deriving DecidableEq, Repr

/-- Hook state of the canonical Upload component (Upload.jsx lines 5-11). -/
structure UploadState where
  file : Option MediaFile
  preview : Option String
  loading : Bool
  result : Option AnalysisData
  error : Option String
  selectedVisualization : Nat
deriving DecidableEq, Repr

/-- Initial hook values (Upload.jsx lines 5-11). -/
def initState : UploadState := ⟨none, none, false, none, none, 0⟩

/-- JavaScript string disjunction a || b: the empty string is falsy. -/
def jsOrElse (a b : String) : String := if a = "" then b else a

/-- Validation error text (Upload.jsx line 29). -/
def validationMsg : String := "Please select a valid video file"

/-- Fallback used when a non-ok body has no truthy detail (line 74). -/
def analysisFailedMsg : String := "Analysis failed"

/-- Catch-all used when a caught exception has no truthy message (line 85). -/
def catchAllMsg : String := "Error analyzing video. Make sure the backend is running."

/-- Default API base URL (Upload.jsx line 13). -/
def apiUrl : String := "http://localhost:8000"

/-- String.prototype.startsWith, stated structurally over the character
list so that it evaluates inside the kernel. -/
def strStartsWith (s p : String) : Bool := List.isPrefixOf p.data s.data

/-- handleFileSelect (Upload.jsx lines 16-31).  A present file whose
declared MIME type begins with video/ is stored and the error and result
hooks are cleared; the FileReader preview callback is modelled as
completing immediately with the file payload (the preview value is never
read on any other path).  A missing or non-video file only sets the
validation error. -/
def handleFileSelect (s : UploadState) (f : Option MediaFile) : UploadState :=
  match f with
  | some file =>
    if strStartsWith file.mime "video/" then
      { s with file := some file, preview := some file.content,
               error := none, result := none }
    else
      { s with error := some validationMsg }
  | none => { s with error := some validationMsg }

/-- The POST request handleSubmit issues: target URL and the one multipart
form field holding the file. -/
structure AnalysisRequest where
  url : String
  fileField : MediaFile
deriving DecidableEq, Repr

/-- handleSubmit up to its first await (Upload.jsx lines 55-70): the
missing-file guard, then setLoading(true), setError(null), and the fetch
of predict-video with the include_gradcam flag.  Returns the state as it
stands while the request is in flight together with the issued request. -/
def handleSubmitStart (s : UploadState) : UploadState × Option AnalysisRequest :=
  match s.file with
  | none => (s, none)
  | some f =>
    ({ s with loading := true, error := none },
     some ⟨apiUrl ++ "/predict-video?include_gradcam=true", f⟩)

/-- The submit event as the user can actually raise it: the form exists
only while result is null (Upload.jsx line 147) and its only submit
control is disabled while no file is chosen or a request is loading
(line 233), so a submit event reaches handleSubmit exactly in the
remaining states. -/
def submitEvent (s : UploadState) : UploadState × Option AnalysisRequest :=
  if s.result = none ∧ s.file.isSome ∧ s.loading = false then
    handleSubmitStart s
  else
    (s, none)

/-- handleSubmit from its first await to the end (Upload.jsx lines 72-89):
a non-ok response surfaces errorData.detail falling back to the fixed
failure message, a body that fails to parse surfaces the thrown parse
exception's message, an ok body is stored as the result and resets the
selected visualization to 0 when gradcam frames are present, and the
finally clause clears the loading flag. -/
def handleSubmitResolve (s : UploadState) (r : ServerReply) : UploadState :=
  match r with
  | .netFail m =>
    { s with error := some (jsOrElse m catchAllMsg), loading := false }
  | .errStatus (.parseError m) =>
    { s with error := some (jsOrElse m catchAllMsg), loading := false }
  | .errStatus (.ok b) =>
    { s with error := some (jsOrElse (jsOrElse (b.detail.getD "") analysisFailedMsg) catchAllMsg),
             loading := false }
  | .okStatus (.parseError m) =>
    { s with error := some (jsOrElse m catchAllMsg), loading := false }
  | .okStatus (.ok d) =>
    { s with result := some d,
             selectedVisualization :=
               if 0 < d.gradcam_frames.length then 0 else s.selectedVisualization,
             loading := false }

/-- onClick of the remove-file control (Upload.jsx lines 199-209). -/
def removeFileClick (s : UploadState) : UploadState :=
  { s with file := none, preview := none, result := none }

/-- onClick of the Analyze Another button (Upload.jsx lines 403-414). -/
def analyzeAnotherClick (s : UploadState) : UploadState :=
  { s with file := none, preview := none, result := none, error := none,
           selectedVisualization := 0 }

/-- onClick of the thumbnail with index idx (Upload.jsx line 357). -/
def thumbClick (s : UploadState) (idx : Nat) : UploadState :=
  { s with selectedVisualization := idx }

/-- User and network events the mounted component can receive. -/
inductive Event where
  | select (f : Option MediaFile)
  | submit
  | resolve (r : ServerReply)
  | removeFile
  | analyzeAnother
  | thumb (idx : Nat)
deriving DecidableEq, Repr

/-- One reaction of the component.  Each handler fires only where its
control is rendered: the file input and the form exist while result is
null, the remove-file control additionally needs a chosen file, the
Analyze Another button and the thumbnails exist only in the result view
(a thumbnail exists per frame, and only when more than one frame came
back), and a fetch continuation arrives only while a request is in
flight. -/
def step (s : UploadState) (e : Event) : UploadState :=
  match e with
  | .select f => if s.result = none then handleFileSelect s f else s
  | .submit => (submitEvent s).1
  | .resolve r => if s.loading then handleSubmitResolve s r else s
  | .removeFile => if s.result = none ∧ s.file.isSome then removeFileClick s else s
  | .analyzeAnother => if s.result.isSome then analyzeAnotherClick s else s
  | .thumb idx =>
    match s.result with
    | some d =>
      if 1 < d.gradcam_frames.length ∧ idx < d.gradcam_frames.length then
        thumbClick s idx
      else s
    | none => s

/-- Run a list of events from a state. -/
def run (s : UploadState) (es : List Event) : UploadState := es.foldl step s

/-- The five workflow states of the specification. -/
inductive WorkflowState where
  | Idle
  | Ready
  | Submitting
  | Resulted
  | Failed
deriving DecidableEq, Repr

/-- The specification's workflow state read off the hook state: a request
in flight is Submitting, else a stored AnalysisResult is Resulted, else a
stored error is Failed, else a chosen file is Ready, else Idle. -/
def workflowOf (s : UploadState) : WorkflowState :=
  if s.loading then .Submitting
  else if s.result.isSome then .Resulted
  else if s.error.isSome then .Failed
  else if s.file.isSome then .Ready
  else .Idle

/-- getResultColor (Upload.jsx lines 93-104). -/
def getResultColor (p : String) : String :=
  if p = "REAL" then "from-green-400 to-emerald-400"
  else if p = "FAKE" then "from-red-400 to-rose-400"
  else if p = "SUSPICIOUS" then "from-yellow-400 to-orange-400"
  else "from-cyan-400 to-purple-400"

/-- getResultBg (Upload.jsx lines 106-117). -/
def getResultBg (p : String) : String :=
  if p = "REAL" then "bg-green-500/10 border-green-500/30"
  else if p = "FAKE" then "bg-red-500/10 border-red-500/30"
  else if p = "SUSPICIOUS" then "bg-yellow-500/10 border-yellow-500/30"
  else "bg-white/5 border-white/10"

/-- Headline rendering (Upload.jsx lines 285-289): three guarded
fragments, none of which renders for an unrecognized prediction. -/
def headline (p : String) : Option String :=
  if p = "REAL" then some "✓ Content Verified"
  else if p = "FAKE" then some "⚠ Deepfake Detected"
  else if p = "SUSPICIOUS" then some "? Suspicious Content"
  else none

/-- Number.prototype.toFixed with one fraction digit on a non-negative
value, per ECMA-262: the integer n for which n / 10 is closest to the
value, ties resolved to the larger n, printed as the quotient, a point,
and the single remaining digit. -/
def toFixed1 (q : ℚ) : String :=
  let n : ℤ := ⌊q * 10 + 1 / 2⌋
  toString (n / 10) ++ "." ++ toString (n % 10)

/-- Confidence display (Upload.jsx lines 295-297): the value times 100,
toFixed(1), followed by a percent sign from the adjacent JSX text. -/
def renderConfidence (c : ℚ) : String := toFixed1 (c * 100) ++ "%"

/-- Selected-visualization index in range whenever the current result
carries gradcam frames. -/
def selOk (s : UploadState) : Bool :=
  match s.result with
  | none => true
  | some d =>
    d.gradcam_frames.isEmpty || decide (s.selectedVisualization < d.gradcam_frames.length)

/-! The duplicate Upload implementation (src/unnamed/part_001): same hook
state minus the selectedVisualization hook, same handleFileSelect and
reset logic, and a handleSubmit that fetches predict-video without the
include_gradcam flag and stores the result without touching any
visualization selection. -/

/-- Hook state of the duplicate Upload implementation (part_001 lines
5-10). -/
structure DupState where
  file : Option MediaFile
  preview : Option String
  loading : Bool
  result : Option AnalysisData
  error : Option String
deriving DecidableEq, Repr

/-- The fields the two implementations share, read off the canonical
state. -/
def sharedPart (s : UploadState) : DupState :=
  ⟨s.file, s.preview, s.loading, s.result, s.error⟩

/-- handleFileSelect of the duplicate implementation (part_001 lines
15-30), textually identical logic to the canonical one. -/
def dupHandleFileSelect (s : DupState) (f : Option MediaFile) : DupState :=
  match f with
  | some file =>
    if strStartsWith file.mime "video/" then
      { s with file := some file, preview := some file.content,
               error := none, result := none }
    else
      { s with error := some validationMsg }
  | none => { s with error := some validationMsg }

/-- handleSubmit of the duplicate implementation up to its first await
(part_001 lines 54-68): same guard, fetch of predict-video without the
include_gradcam query flag. -/
def dupHandleSubmitStart (s : DupState) : DupState × Option AnalysisRequest :=
  match s.file with
  | none => (s, none)
  | some f =>
    ({ s with loading := true, error := none },
     some ⟨apiUrl ++ "/predict-video", f⟩)

/-- The duplicate implementation's submit event: same rendering and same
disabled condition on its submit control (part_001 lines 140, 226). -/
def dupSubmitEvent (s : DupState) : DupState × Option AnalysisRequest :=
  if s.result = none ∧ s.file.isSome ∧ s.loading = false then
    dupHandleSubmitStart s
  else
    (s, none)

/-- handleSubmit of the duplicate implementation from its first await to
the end (part_001 lines 70-82): identical error handling, and an ok body
is only stored as the result. -/
def dupHandleSubmitResolve (s : DupState) (r : ServerReply) : DupState :=
  match r with
  | .netFail m =>
    { s with error := some (jsOrElse m catchAllMsg), loading := false }
  | .errStatus (.parseError m) =>
    { s with error := some (jsOrElse m catchAllMsg), loading := false }
  | .errStatus (.ok b) =>
    { s with error := some (jsOrElse (jsOrElse (b.detail.getD "") analysisFailedMsg) catchAllMsg),
             loading := false }
  | .okStatus (.parseError m) =>
    { s with error := some (jsOrElse m catchAllMsg), loading := false }
  | .okStatus (.ok d) =>
    { s with result := some d, loading := false }

/-- onClick of the duplicate implementation's remove-file control
(part_001 lines 192-202). -/
def dupRemoveFileClick (s : DupState) : DupState :=
  { s with file := none, preview := none, result := none }

/-- onClick of the duplicate implementation's Analyze Another button
(part_001 lines 346-355). -/
def dupAnalyzeAnotherClick (s : DupState) : DupState :=
  { s with file := none, preview := none, result := none, error := none }

/-- A reply that carries no evidence frames: its success body, if any,
has an empty gradcam_frames list. -/
def noGradcam (r : ServerReply) : Prop :=
  match r with
  | .okStatus (.ok d) => d.gradcam_frames = []
  | _ => True

/-! Concrete fixtures used by counterexamples and witnesses. -/

/-- A valid video file. -/
def sampleVideo : MediaFile := ⟨"a.mp4", "video/mp4", 1024, "videobytes"⟩

/-- A second valid video file. -/
def sampleVideo2 : MediaFile := ⟨"b.webm", "video/webm", 2048, "webmbytes"⟩

/-- A non-video file. -/
def sampleText : MediaFile := ⟨"a.txt", "text/plain", 10, "hello"⟩

/-- A success body with no evidence frames. -/
def sampleResult : AnalysisData := ⟨"FAKE", 972 / 1000, "a.mp4", []⟩

/-- A reachable Failed state that still holds the chosen file: select a
video, submit it, and receive a 500 whose body carries a detail. -/
def failedWithFile : UploadState :=
  run initState
    [Event.select (some sampleVideo), Event.submit,
     Event.resolve (ServerReply.errStatus (ParseOutcome.ok ⟨some "file too large"⟩))]

/-- A reachable Resulted state. -/
def resultedState : UploadState :=
  run initState
    [Event.select (some sampleVideo), Event.submit,
     Event.resolve (ServerReply.okStatus (ParseOutcome.ok sampleResult))]

/-- C1 counterexample: after a reachable run that submits a video and
receives a non-success response whose body is not parseable JSON, the
workflow carries the parse exception's message, which is neither of the
two generic fallback messages the code defines, so the claim's
not-parseable case does not yield the generic fallback. -/
theorem claim_C1_counterexample :
    (run initState
      [Event.select (some sampleVideo), Event.submit,
       Event.resolve (ServerReply.errStatus
         (ParseOutcome.parseError "Unexpected end of JSON input"))]).error
      = some "Unexpected end of JSON input"
    ∧ "Unexpected end of JSON input" ≠ analysisFailedMsg
    ∧ "Unexpected end of JSON input" ≠ catchAllMsg := by
  refine ⟨rfl, by decide, by decide⟩

/-- C1 (amended): for a non-success response whose body parses as JSON
with a non-empty detail string, the workflow transitions to Failed
carrying exactly that detail; for a body that is not parseable JSON, it
transitions to Failed carrying the parse exception's message when that
message is non-empty (the generic catch-all only when it is empty), not a
fixed generic fallback message. -/
theorem claim_C1 (s : UploadState) (hres : s.result = none) (d m : String)
    (hd : d ≠ "") (hm : m ≠ "") :
    workflowOf (handleSubmitResolve s (ServerReply.errStatus (ParseOutcome.ok ⟨some d⟩)))
      = WorkflowState.Failed
    ∧ (handleSubmitResolve s (ServerReply.errStatus (ParseOutcome.ok ⟨some d⟩))).error
      = some d
    ∧ workflowOf (handleSubmitResolve s (ServerReply.errStatus (ParseOutcome.parseError m)))
      = WorkflowState.Failed
    ∧ (handleSubmitResolve s (ServerReply.errStatus (ParseOutcome.parseError m))).error
      = some m := by
  have hd2 : analysisFailedMsg ≠ "" := by decide
  refine ⟨?_, ?_, ?_, ?_⟩ <;>
    simp [handleSubmitResolve, workflowOf, jsOrElse, hres, hd, hm, hd2]

/-- C1 witness: the amended claim at the spec's own example, a 500 whose
body is the JSON object with detail "file too large". -/
theorem claim_C1_witness :
    workflowOf (handleSubmitResolve initState
        (ServerReply.errStatus (ParseOutcome.ok ⟨some "file too large"⟩)))
      = WorkflowState.Failed
    ∧ (handleSubmitResolve initState
        (ServerReply.errStatus (ParseOutcome.ok ⟨some "file too large"⟩))).error
      = some "file too large"
    ∧ workflowOf (handleSubmitResolve initState
        (ServerReply.errStatus (ParseOutcome.parseError "Unexpected end of JSON input")))
      = WorkflowState.Failed
    ∧ (handleSubmitResolve initState
        (ServerReply.errStatus (ParseOutcome.parseError "Unexpected end of JSON input"))).error
      = some "Unexpected end of JSON input" :=
  claim_C1 initState rfl "file too large" "Unexpected end of JSON input"
    (by decide) (by decide)

/-- C2: the code applies a stale response.  After selecting a video,
submitting it, and removing the file while the request is in flight (a
reset the rendered form allows), the late success response still stores
its result: the workflow ends Resulted with no file, instead of the
response being discarded. -/
theorem claim_C2_stale_applied :
    (run initState
      [Event.select (some sampleVideo), Event.submit, Event.removeFile,
       Event.resolve (ServerReply.okStatus (ParseOutcome.ok sampleResult))]).result
      = some sampleResult
    ∧ workflowOf (run initState
        [Event.select (some sampleVideo), Event.submit, Event.removeFile,
         Event.resolve (ServerReply.okStatus (ParseOutcome.ok sampleResult))])
      = WorkflowState.Resulted
    ∧ (run initState
        [Event.select (some sampleVideo), Event.submit, Event.removeFile,
         Event.resolve (ServerReply.okStatus (ParseOutcome.ok sampleResult))]).file
      = none := by
  refine ⟨rfl, rfl, rfl⟩

/-- C3 counterexample: in the reachable Failed state that still holds the
chosen file, the submit control is enabled again, and invoking it both
changes the state and issues a second request, so submit from a non-Ready
state is not always a no-op. -/
theorem claim_C3_counterexample :
    workflowOf failedWithFile = WorkflowState.Failed
    ∧ (submitEvent failedWithFile).1 ≠ failedWithFile
    ∧ (submitEvent failedWithFile).1.loading = true
    ∧ failedWithFile.loading = false
    ∧ (submitEvent failedWithFile).2.isSome = true := by
  refine ⟨rfl, ?_, rfl, rfl, rfl⟩
  intro h
  have h2 := congrArg UploadState.loading h
  rw [show (submitEvent failedWithFile).1.loading = true from rfl,
      show failedWithFile.loading = false from rfl] at h2
  exact Bool.noConfusion h2

/-- C3 (amended): invoking submit is a no-op — state unchanged and no
request issued — from Idle, from Submitting, from Resulted, and from a
Failed state holding no accepted file; only a Failed state that still
holds an accepted file lets submit start a new request. -/
theorem claim_C3 (s : UploadState) (h : workflowOf s ≠ WorkflowState.Ready)
    (h2 : ¬(workflowOf s = WorkflowState.Failed ∧ s.file.isSome = true)) :
    submitEvent s = (s, none) := by
  unfold submitEvent
  split
  · next hc =>
    obtain ⟨hr, hf, hl⟩ := hc
    exfalso
    rcases he : s.error with _ | err
    · exact h (by simp [workflowOf, hl, hr, he, hf])
    · exact h2 ⟨by simp [workflowOf, hl, hr, he], hf⟩
  · rfl

/-- C3 witness: submit is a no-op in the initial Idle state. -/
theorem claim_C3_witness : submitEvent initState = (initState, none) :=
  claim_C3 initState (by decide) (by decide)

/-- C4 counterexample: from the reachable Failed state the only available
reset is the remove-file control, and invoking it leaves the error message
in place: the workflow stays Failed instead of returning to Idle with the
error cleared. -/
theorem claim_C4_counterexample :
    (run failedWithFile [Event.removeFile]).error = some "file too large"
    ∧ workflowOf (run failedWithFile [Event.removeFile]) = WorkflowState.Failed
    ∧ workflowOf (run failedWithFile [Event.removeFile]) ≠ WorkflowState.Idle := by
  refine ⟨rfl, rfl, by decide⟩

/-- C4 (amended): reset from Resulted via Analyze Another returns to Idle
with the file, result, and error cleared and the evidence-frame selection
back at its initial value 0; the remove-file reset clears the file,
preview, and result but leaves the error and the frame selection
unchanged, so from Failed it does not clear the error. -/
theorem claim_C4 (s : UploadState) (h : workflowOf s = WorkflowState.Resulted) :
    workflowOf (analyzeAnotherClick s) = WorkflowState.Idle
    ∧ (analyzeAnotherClick s).file = none
    ∧ (analyzeAnotherClick s).result = none
    ∧ (analyzeAnotherClick s).error = none
    ∧ (analyzeAnotherClick s).selectedVisualization = 0
    ∧ ∀ t : UploadState, (removeFileClick t).error = t.error
        ∧ (removeFileClick t).selectedVisualization = t.selectedVisualization
        ∧ (removeFileClick t).file = none
        ∧ (removeFileClick t).result = none := by
  have hl : s.loading = false := by
    by_cases hl : s.loading
    · simp [workflowOf, hl] at h
    · simpa using hl
  refine ⟨?_, rfl, rfl, rfl, rfl, fun t => ⟨rfl, rfl, rfl, rfl⟩⟩
  simp [workflowOf, analyzeAnotherClick, hl]

/-- C4 witness: the amended claim at the reachable Resulted state, and the
remove-file part at the reachable Failed state. -/
theorem claim_C4_witness :
    workflowOf (analyzeAnotherClick resultedState) = WorkflowState.Idle
    ∧ (analyzeAnotherClick resultedState).error = none
    ∧ (analyzeAnotherClick resultedState).selectedVisualization = 0
    ∧ (removeFileClick failedWithFile).error = failedWithFile.error :=
  ⟨(claim_C4 resultedState rfl).1, (claim_C4 resultedState rfl).2.2.2.1,
   (claim_C4 resultedState rfl).2.2.2.2.1,
   ((claim_C4 resultedState rfl).2.2.2.2.2 failedWithFile).1⟩

/-- C5: the selection-in-range invariant — whenever the stored result
carries a non-empty gradcam_frames list, the selected visualization index
is below its length — holds initially and is preserved by every event the
component can receive, and a fresh result with a non-empty frame list sets
the selected index to 0. -/
theorem claim_C5 :
    selOk initState = true
    ∧ (∀ s e, selOk s = true → selOk (step s e) = true)
    ∧ (∀ s d, s.loading = true → d.gradcam_frames ≠ [] →
        (step s (Event.resolve (ServerReply.okStatus (ParseOutcome.ok d)))).selectedVisualization
          = 0) := by
  have hcongr : ∀ s t : UploadState, t.result = s.result →
      t.selectedVisualization = s.selectedVisualization → selOk s = true → selOk t = true := by
    intro s t hr hv hs
    unfold selOk at hs ⊢
    rw [hr, hv]
    exact hs
  refine ⟨rfl, ?_, ?_⟩
  · intro s e h
    cases e with
    | select f =>
      simp only [step]
      split
      · cases f with
        | none => exact hcongr s _ rfl rfl h
        | some file =>
          simp only [handleFileSelect]
          split
          · simp [selOk]
          · exact hcongr s _ rfl rfl h
      · exact h
    | submit =>
      simp only [step, submitEvent]
      split
      · simp only [handleSubmitStart]
        cases hf : s.file with
        | none => exact h
        | some file => exact hcongr s _ rfl rfl h
      · exact h
    | resolve r =>
      simp only [step]
      split
      · cases r with
        | netFail m => exact hcongr s _ rfl rfl h
        | errStatus b =>
          cases b with
          | ok bb => exact hcongr s _ rfl rfl h
          | parseError m => exact hcongr s _ rfl rfl h
        | okStatus b =>
          cases b with
          | parseError m => exact hcongr s _ rfl rfl h
          | ok d =>
            simp only [handleSubmitResolve, selOk]
            rcases Nat.eq_zero_or_pos d.gradcam_frames.length with h0 | hp
            · have he : d.gradcam_frames = [] := List.length_eq_zero.mp h0
              simp [he]
            · simp [hp]
      · exact h
    | removeFile =>
      simp only [step]
      split
      · simp [selOk, removeFileClick]
      · exact h
    | analyzeAnother =>
      simp only [step]
      split
      · simp [selOk, analyzeAnotherClick]
      · exact h
    | thumb idx =>
      simp only [step]
      cases hres : s.result with
      | none => exact h
      | some d =>
        show selOk
            (if 1 < d.gradcam_frames.length ∧ idx < d.gradcam_frames.length then
              thumbClick s idx else s) = true
        split
        · rename_i hcond
          simp [selOk, thumbClick, hres, hcond.2]
        · exact h
  · intro s d hl hd
    have hp : 0 < d.gradcam_frames.length := List.length_pos.mpr hd
    simp [step, hl, handleSubmitResolve, hp]

/-- C5 witness: the preservation part applied to a concrete state and
event, with the invariant discharged at the initial state. -/
theorem claim_C5_witness : selOk (step initState (Event.select (some sampleVideo))) = true :=
  claim_C5.2.1 initState (Event.select (some sampleVideo)) rfl

/-- C6: for every confidence in the unit interval, the rendered text is an
integer part, a point, exactly one decimal digit, and a percent sign, with
the displayed value within half a unit in the last place of the confidence
times 100; in particular 0.9847 renders exactly as the string 98.5 percent. -/
theorem claim_C6 :
    (∀ c : ℚ, 0 ≤ c → c ≤ 1 → ∃ n : ℤ, 0 ≤ n ∧ n ≤ 1000 ∧
      renderConfidence c = toString (n / 10) ++ "." ++ toString (n % 10) ++ "%"
      ∧ |(n : ℚ) / 10 - c * 100| ≤ 1 / 20)
    ∧ renderConfidence (9847 / 10000) = "98.5%" := by
  constructor
  · intro c h0 h1
    refine ⟨⌊c * 100 * 10 + 1 / 2⌋, ?_, ?_, rfl, ?_⟩
    · exact Int.floor_nonneg.mpr (by nlinarith)
    · have h2 : (c * 100 * 10 + 1 / 2 : ℚ) < 1001 := by nlinarith
      have h3 := Int.floor_le (c * 100 * 10 + 1 / 2 : ℚ)
      have h5 : (⌊c * 100 * 10 + 1 / 2⌋ : ℤ) < 1001 := by
        exact_mod_cast lt_of_le_of_lt h3 h2
      omega
    · have ha := Int.floor_le (c * 100 * 10 + 1 / 2 : ℚ)
      have hb := Int.lt_floor_add_one (c * 100 * 10 + 1 / 2 : ℚ)
      rw [abs_le]
      constructor <;> [linarith [hb]; linarith [ha]]
  · have h : (⌊(9847 / 10000 : ℚ) * 100 * 10 + 1 / 2⌋ : ℤ) = 985 :=
      Int.floor_eq_iff.mpr (by norm_num)
    simp only [renderConfidence, toFixed1, h]
    decide

/-- C6 witness: the general statement applied at confidence 0.9847. -/
theorem claim_C6_witness :
    ∃ n : ℤ, 0 ≤ n ∧ n ≤ 1000 ∧
      renderConfidence (9847 / 10000) = toString (n / 10) ++ "." ++ toString (n % 10) ++ "%"
      ∧ |(n : ℚ) / 10 - (9847 / 10000 : ℚ) * 100| ≤ 1 / 20 :=
  claim_C6.1 (9847 / 10000) (by norm_num) (by norm_num)

/-- A reachable state in which a valid video was selected while the
previous request was still in flight: the file input stays active during
loading, so this selection is available to the user. -/
def selectDuringLoading : UploadState :=
  run initState
    [Event.select (some sampleVideo), Event.submit, Event.select (some sampleVideo2)]

/-- C7 counterexample: a valid video selected while a request is in
flight is stored and clears error and result, but the workflow stays
Submitting, not Ready. -/
theorem claim_C7_counterexample :
    strStartsWith sampleVideo2.mime "video/" = true
    ∧ selectDuringLoading.file = some sampleVideo2
    ∧ selectDuringLoading.error = none
    ∧ selectDuringLoading.result = none
    ∧ workflowOf selectDuringLoading = WorkflowState.Submitting
    ∧ workflowOf selectDuringLoading ≠ WorkflowState.Ready := by
  refine ⟨rfl, rfl, rfl, rfl, rfl, by decide⟩

/-- C7 (amended): selecting a file whose declared MIME type begins with
video/ stores that file and clears any prior error and any prior result;
when no request is in flight the workflow is then Ready, while a
selection made during Submitting leaves the workflow Submitting. -/
theorem claim_C7 (s : UploadState) (f : MediaFile)
    (hf : strStartsWith f.mime "video/" = true) :
    (handleFileSelect s (some f)).file = some f
    ∧ (handleFileSelect s (some f)).error = none
    ∧ (handleFileSelect s (some f)).result = none
    ∧ (s.loading = false → workflowOf (handleFileSelect s (some f)) = WorkflowState.Ready) := by
  refine ⟨?_, ?_, ?_, ?_⟩
  · simp [handleFileSelect, hf]
  · simp [handleFileSelect, hf]
  · simp [handleFileSelect, hf]
  · intro hl
    simp [handleFileSelect, hf, workflowOf, hl]

/-- C7 witness: the amended claim at the initial state and a concrete
video file, with the in-flight hypothesis discharged. -/
theorem claim_C7_witness :
    (handleFileSelect initState (some sampleVideo)).file = some sampleVideo
    ∧ workflowOf (handleFileSelect initState (some sampleVideo)) = WorkflowState.Ready :=
  ⟨(claim_C7 initState sampleVideo rfl).1,
   (claim_C7 initState sampleVideo rfl).2.2.2 rfl⟩

/-- C8: an invalid or missing selection sets the validation error, leaves
the previously chosen file and any stored result untouched, and when no
file had been accepted the workflow is not Ready afterwards. -/
theorem claim_C8 (s : UploadState) (f : Option MediaFile)
    (hf : ∀ file, f = some file → strStartsWith file.mime "video/" = false) :
    (handleFileSelect s f).error = some validationMsg
    ∧ (handleFileSelect s f).file = s.file
    ∧ (handleFileSelect s f).result = s.result
    ∧ (s.file = none → workflowOf (handleFileSelect s f) ≠ WorkflowState.Ready) := by
  have hready : ∀ t : UploadState, t.error = some validationMsg →
      workflowOf t ≠ WorkflowState.Ready := by
    intro t he
    unfold workflowOf
    rw [he]
    split_ifs <;> simp_all
  cases f with
  | none =>
    exact ⟨rfl, rfl, rfl, fun _ => hready _ rfl⟩
  | some file =>
    have hv := hf file rfl
    refine ⟨?_, ?_, ?_, ?_⟩
    · simp [handleFileSelect, hv]
    · simp [handleFileSelect, hv]
    · simp [handleFileSelect, hv]
    · intro hfile
      refine fun hcontra => hready (handleFileSelect s (some file)) ?_ hcontra
      simp [handleFileSelect, hv]

/-- C8 witness: the claim at the initial state with a text file. -/
theorem claim_C8_witness :
    (handleFileSelect initState (some sampleText)).error = some validationMsg
    ∧ (handleFileSelect initState (some sampleText)).file = none
    ∧ workflowOf (handleFileSelect initState (some sampleText)) ≠ WorkflowState.Ready := by
  have h := claim_C8 initState (some sampleText) (fun file hfe => by cases hfe; rfl)
  exact ⟨h.1, h.2.1.trans rfl, h.2.2.2 rfl⟩

/-- C9: the three recognized predictions map to pairwise distinct accent
gradients, card backgrounds, and headlines, and every unrecognized
prediction falls back to the default gradient and background with no
headline — the mapping functions are total and never fail. -/
theorem claim_C9 :
    (getResultColor "REAL" ≠ getResultColor "FAKE"
     ∧ getResultColor "REAL" ≠ getResultColor "SUSPICIOUS"
     ∧ getResultColor "FAKE" ≠ getResultColor "SUSPICIOUS"
     ∧ getResultBg "REAL" ≠ getResultBg "FAKE"
     ∧ getResultBg "REAL" ≠ getResultBg "SUSPICIOUS"
     ∧ getResultBg "FAKE" ≠ getResultBg "SUSPICIOUS"
     ∧ headline "REAL" = some "✓ Content Verified"
     ∧ headline "FAKE" = some "⚠ Deepfake Detected"
     ∧ headline "SUSPICIOUS" = some "? Suspicious Content")
    ∧ (∀ p : String, p ≠ "REAL" → p ≠ "FAKE" → p ≠ "SUSPICIOUS" →
        getResultColor p = "from-cyan-400 to-purple-400"
        ∧ getResultBg p = "bg-white/5 border-white/10"
        ∧ headline p = none) := by
  refine ⟨by decide, ?_⟩
  intro p h1 h2 h3
  refine ⟨?_, ?_, ?_⟩ <;> simp [getResultColor, getResultBg, headline, h1, h2, h3]

/-- C9 witness: the default branch at a concrete unrecognized value. -/
theorem claim_C9_witness :
    getResultColor "DEEPFAKE" = "from-cyan-400 to-purple-400"
    ∧ getResultBg "DEEPFAKE" = "bg-white/5 border-white/10"
    ∧ headline "DEEPFAKE" = none :=
  claim_C9.2 "DEEPFAKE" (by decide) (by decide) (by decide)

/-- C10: on the shared hook state, the canonical Upload and the duplicate
Upload agree on file selection, on the guarded submit (same state change,
and the same request up to the include_gradcam query flag on the same
URL and file field), on every response without evidence frames, and on
both reset controls. -/
theorem claim_C10 :
    (∀ s f, sharedPart (handleFileSelect s f) = dupHandleFileSelect (sharedPart s) f)
    ∧ (∀ s, sharedPart (submitEvent s).1 = (dupSubmitEvent (sharedPart s)).1)
    ∧ (∀ s, ((submitEvent s).2 = none ∧ (dupSubmitEvent (sharedPart s)).2 = none)
        ∨ ∃ f, (submitEvent s).2
              = some ⟨apiUrl ++ "/predict-video?include_gradcam=true", f⟩
            ∧ (dupSubmitEvent (sharedPart s)).2 = some ⟨apiUrl ++ "/predict-video", f⟩)
    ∧ (∀ s r, noGradcam r →
        sharedPart (handleSubmitResolve s r) = dupHandleSubmitResolve (sharedPart s) r)
    ∧ (∀ s, sharedPart (removeFileClick s) = dupRemoveFileClick (sharedPart s))
    ∧ (∀ s, sharedPart (analyzeAnotherClick s) = dupAnalyzeAnotherClick (sharedPart s)) := by
  refine ⟨?_, ?_, ?_, ?_, fun s => rfl, fun s => rfl⟩
  · intro s f
    cases f with
    | none => rfl
    | some file =>
      by_cases hv : strStartsWith file.mime "video/" = true
      · simp [handleFileSelect, dupHandleFileSelect, sharedPart, hv]
      · simp [handleFileSelect, dupHandleFileSelect, sharedPart, hv]
  · intro s
    by_cases hc : s.result = none ∧ s.file.isSome = true ∧ s.loading = false
    · obtain ⟨h1, h2, h3⟩ := hc
      cases hfile : s.file with
      | none => rw [hfile] at h2; exact absurd h2 (by decide)
      | some file =>
        simp [submitEvent, dupSubmitEvent, handleSubmitStart, dupHandleSubmitStart,
              sharedPart, h1, h3, hfile]
    · have hc2 : ¬((sharedPart s).result = none ∧ (sharedPart s).file.isSome = true
          ∧ (sharedPart s).loading = false) := hc
      simp [submitEvent, dupSubmitEvent, hc, hc2, sharedPart]
  · intro s
    by_cases hc : s.result = none ∧ s.file.isSome = true ∧ s.loading = false
    · obtain ⟨h1, h2, h3⟩ := hc
      cases hfile : s.file with
      | none => rw [hfile] at h2; exact absurd h2 (by decide)
      | some file =>
        right
        refine ⟨file, ?_, ?_⟩
        · simp [submitEvent, handleSubmitStart, h1, h3, hfile]
        · simp [dupSubmitEvent, dupHandleSubmitStart, sharedPart, h1, h3, hfile]
    · have hc2 : ¬((sharedPart s).result = none ∧ (sharedPart s).file.isSome = true
          ∧ (sharedPart s).loading = false) := hc
      left
      constructor
      · simp [submitEvent, hc]
      · simp [dupSubmitEvent, hc2]
  · intro s r _
    cases r with
    | netFail m => rfl
    | errStatus b => cases b <;> rfl
    | okStatus b => cases b <;> rfl

/-- C10 witness: the resolve agreement at the reachable Failed state and
a concrete frameless success reply. -/
theorem claim_C10_witness :
    sharedPart (handleSubmitResolve failedWithFile
        (ServerReply.okStatus (ParseOutcome.ok sampleResult)))
      = dupHandleSubmitResolve (sharedPart failedWithFile)
        (ServerReply.okStatus (ParseOutcome.ok sampleResult)) :=
  claim_C10.2.2.2.1 failedWithFile (ServerReply.okStatus (ParseOutcome.ok sampleResult)) rfl

end Veritrust
